import Mathlib

/-!
Verification development for the entitlement state-transition engine of an
Ubuntu Pro client. The engine itself (`uaclient/entitlements/base.py`, the
status enumerations in `uaclient/entitlements/entitlement_status.py` and the
message catalogue in `uaclient/messages.py`) is not part of the source tree
available here; only its unit tests (`uaclient/entitlements/tests/test_base.py`)
and one caller (`uaclient/api/u/pro/status/enabled_services/v1.py`) are.
The definitions below therefore model the engine from the written design
specification, cross-checked against the behaviour pinned by the unit tests;
`_enabled_services` at the end is translated directly from its Python source.
-/

/-- Status of the applicability check: can this machine ever run the service?
Modelled from the spec: `ApplicabilityStatus` of
`uaclient/entitlements/entitlement_status.py` (module not in the tree). -/
inductive ApplicabilityStatus where
  | APPLICABLE
  | INAPPLICABLE
deriving DecidableEq, Repr

/-- Live enablement state of a service on the machine.
Modelled from the spec: `ApplicationStatus` of
`uaclient/entitlements/entitlement_status.py` (module not in the tree). -/
inductive ApplicationStatus where
  | ENABLED
  | DISABLED
  | WARNING
deriving DecidableEq, Repr

/-- Whether the contract grants access to a service.
Modelled from the spec: `ContractStatus` of `uaclient/status.py`
(module not in the tree). -/
inductive ContractStatus where
  | ENTITLED
  | UNENTITLED
deriving DecidableEq, Repr

/-- Status shown to the user, derived from the three statuses above.
Modelled from the spec: `UserFacingStatus` of
`uaclient/entitlements/entitlement_status.py` (module not in the tree). -/
inductive UserFacingStatus where
  | INAPPLICABLE
  | UNAVAILABLE
  | INACTIVE
  | ACTIVE
  | WARNING
deriving DecidableEq, Repr

/-- Reason codes of a failed `can_enable` check.
Modelled from the spec: `CanEnableFailureReason` of
`uaclient/entitlements/entitlement_status.py` (module not in the tree). -/
inductive CanEnableFailureReason where
  | NOT_ENTITLED
  | ACCESS_ONLY_NOT_SUPPORTED
  | ALREADY_ENABLED
  | INAPPLICABLE
  | IS_BETA
  | INCOMPATIBLE_SERVICE
  | INACTIVE_REQUIRED_SERVICES
deriving DecidableEq, Repr

/-- Reason codes of a failed `can_disable` check.
Modelled from the spec: `CanDisableFailureReason` of
`uaclient/entitlements/entitlement_status.py` (module not in the tree). -/
inductive CanDisableFailureReason where
  | PURGE_NOT_SUPPORTED
  | ALREADY_DISABLED
  | ACTIVE_DEPENDENT_SERVICES
deriving DecidableEq, Repr

/-- A named, human-readable message: `uaclient.messages.NamedMessage`
(module not in the tree), a pair of a stable `name` code and a
formatted `msg` text. -/
structure NamedMessage where
  name : String
  msg : String
deriving DecidableEq, Repr

namespace messages

/-- Modelled from the spec: the `UNENTITLED` template of `uaclient/messages.py`
(module not in the tree); a "not entitled" message naming the service title. -/
def UNENTITLED (title : String) : NamedMessage :=
  { name := "unentitled", msg := "This subscription is not entitled to " ++ title }

/-- Modelled from the spec: the `SERVICE_NOT_ENTITLED` template of
`uaclient/messages.py` (module not in the tree); the "service not entitled"
message naming the service title. -/
def SERVICE_NOT_ENTITLED (title : String) : NamedMessage :=
  { name := "service-not-entitled", msg := title ++ " is not entitled" }

/-- Modelled from the spec: the `ENABLE_ACCESS_ONLY_NOT_SUPPORTED` template of
`uaclient/messages.py` (module not in the tree). -/
def ENABLE_ACCESS_ONLY_NOT_SUPPORTED (title : String) : NamedMessage :=
  { name := "enable-access-only-not-supported",
    msg := title ++ " does not support being enabled with --access-only" }

/-- Modelled from the spec: the `ALREADY_ENABLED` template of
`uaclient/messages.py` (module not in the tree). -/
def ALREADY_ENABLED (title : String) : NamedMessage :=
  { name := "service-already-enabled", msg := title ++ " is already enabled" }

/-- Modelled from the spec: the `ALREADY_DISABLED` template of
`uaclient/messages.py` (module not in the tree). -/
def ALREADY_DISABLED (title : String) : NamedMessage :=
  { name := "service-already-disabled", msg := title ++ " is not currently enabled" }

/-- Modelled from the spec: the `DISABLE_PURGE_NOT_SUPPORTED` template of
`uaclient/messages.py` (module not in the tree). -/
def DISABLE_PURGE_NOT_SUPPORTED (title : String) : NamedMessage :=
  { name := "disable-purge-not-supported",
    msg := title ++ " does not support being disabled with --purge" }

/-- Modelled from the spec: the message produced when a required service fails
to enable: "Cannot enable required service: {title}" with the nested failure
message appended on a new line when present. -/
def ENABLE_REQUIRED_SERVICE_FAILED (title : String)
    (nested : Option NamedMessage) : NamedMessage :=
  { name := "enable-required-service-failed",
    msg := "Cannot enable required service: " ++ title ++
      (match nested with
       | some m => "\n" ++ m.msg
       | none => "") }

/-- Modelled from the spec: the `FAILED_DISABLING_DEPENDENT_SERVICE` template
of `uaclient/messages.py` (module not in the tree). -/
def FAILED_DISABLING_DEPENDENT_SERVICE (title : String)
    (nested : Option NamedMessage) : NamedMessage :=
  { name := "failed-disabling-dependent-service",
    msg := "Failed disabling dependent service: " ++ title ++
      (match nested with
       | some m => "\n" ++ m.msg
       | none => "") }

end messages

/-- A failed `can_enable` outcome: a reason code plus an optional message.
Modelled from the spec: `CanEnableFailure` of
`uaclient/entitlements/entitlement_status.py` (module not in the tree). -/
structure CanEnableFailure where
  reason : CanEnableFailureReason
  message : Option NamedMessage
deriving DecidableEq, Repr

/-- A failed `can_disable` outcome: a reason code plus an optional message.
Modelled from the spec: `CanDisableFailure` of
`uaclient/entitlements/entitlement_status.py` (module not in the tree). -/
structure CanDisableFailure where
  reason : CanDisableFailureReason
  message : Option NamedMessage
deriving DecidableEq, Repr

/-- One related service (dependent, required or incompatible), reduced to the
data the engine queries about it: its identity and its current application
status. Modelled from the spec: the Dependency/Conflict Resolver is a pure
lookup that instantiates each declared related-service class and queries its
current application status. -/
structure RelatedService where
  name : String
  title : String
  application_status : ApplicationStatus
deriving DecidableEq, Repr

/-- One entitlement instance, as seen by the shared state-machine logic.
Modelled from the spec: the `UAEntitlement` entity of
`uaclient/entitlements/base.py` (module not in the tree). Service-specific
polymorphic pieces (`applicability_status`, `application_status`, the
outcomes of `_perform_enable`/`_perform_disable`) are carried as data, the
way the unit tests' `ConcreteTestEntitlement` instruments them. -/
structure Entitlement where
  name : String
  title : String
  presentedAs : Option String := none
  variant_name : String := ""
  is_beta : Bool := false
  allow_beta : Bool := false
  cfg_allow_beta : Bool := false
  access_only : Bool := false
  supports_access_only : Bool := false
  purge : Bool := false
  supports_purge : Bool := false
  entitled : Bool
  applicability_status : ApplicabilityStatus × Option NamedMessage
  application_status : ApplicationStatus × Option NamedMessage
  incompatible_services : List RelatedService := []
  required_services : List RelatedService := []
  dependent_services : List RelatedService := []
  performEnableOk : Bool := true
  performDisableOk : Bool := true
deriving DecidableEq, Repr

/-- Modelled from the spec: `presentation_name` of `uaclient/entitlements/base.py`
(module not in the tree) — the `presentedAs` affordance when present, else the
service name. -/
def presentation_name (e : Entitlement) : String :=
  e.presentedAs.getD e.name

/-- Modelled from the spec: `contract_status` of `uaclient/entitlements/base.py`
(module not in the tree) — ENTITLED iff the contract's `entitled` flag is set. -/
def contract_status (e : Entitlement) : ContractStatus :=
  if e.entitled then ContractStatus.ENTITLED else ContractStatus.UNENTITLED

/-- Modelled from the spec: `user_facing_status` of
`uaclient/entitlements/base.py` (module not in the tree) — the early-return
decision chain over the status triple. The application detail is passed
through unchanged on the application-status branches. -/
def user_facing_status (e : Entitlement) :
    UserFacingStatus × Option NamedMessage :=
  if e.applicability_status.1 = ApplicabilityStatus.INAPPLICABLE then
    (UserFacingStatus.INAPPLICABLE, e.applicability_status.2)
  else if contract_status e = ContractStatus.UNENTITLED then
    (UserFacingStatus.UNAVAILABLE, some (messages.SERVICE_NOT_ENTITLED e.title))
  else if e.application_status.1 = ApplicationStatus.ENABLED then
    (UserFacingStatus.ACTIVE, e.application_status.2)
  else if e.application_status.1 = ApplicationStatus.WARNING then
    (UserFacingStatus.WARNING, e.application_status.2)
  else
    (UserFacingStatus.INACTIVE, e.application_status.2)

/-- Modelled from the spec: `can_enable` of `uaclient/entitlements/base.py`
(module not in the tree) — the ordered, short-circuiting permission checks.
The contract-refresh side effect on an expired access cache (spec step 1)
is an external collaborator call and is not modelled; the check reads the
`entitled` flag that results from it. -/
def can_enable (e : Entitlement) : Bool × Option CanEnableFailure :=
  if e.entitled = false then
    (false, some ⟨CanEnableFailureReason.NOT_ENTITLED,
      some (messages.UNENTITLED e.title)⟩)
  else if e.access_only = true ∧ e.supports_access_only = false then
    (false, some ⟨CanEnableFailureReason.ACCESS_ONLY_NOT_SUPPORTED,
      some (messages.ENABLE_ACCESS_ONLY_NOT_SUPPORTED e.title)⟩)
  else if e.application_status.1 = ApplicationStatus.ENABLED then
    (false, some ⟨CanEnableFailureReason.ALREADY_ENABLED,
      some (messages.ALREADY_ENABLED e.title)⟩)
  else if e.applicability_status.1 = ApplicabilityStatus.INAPPLICABLE then
    (false, some ⟨CanEnableFailureReason.INAPPLICABLE,
      e.applicability_status.2⟩)
  else if e.is_beta = true ∧ e.allow_beta = false ∧ e.cfg_allow_beta = false then
    (false, some ⟨CanEnableFailureReason.IS_BETA, none⟩)
  else if e.incompatible_services.any
      (fun s => s.application_status = ApplicationStatus.ENABLED) then
    (false, some ⟨CanEnableFailureReason.INCOMPATIBLE_SERVICE, none⟩)
  else if e.required_services.any
      (fun s => s.application_status ≠ ApplicationStatus.ENABLED) then
    (false, some ⟨CanEnableFailureReason.INACTIVE_REQUIRED_SERVICES, none⟩)
  else
    (true, none)

/-- Modelled from the spec: `can_disable` of `uaclient/entitlements/base.py`
(module not in the tree) — the ordered, short-circuiting permission checks. -/
def can_disable (e : Entitlement)
    (ignore_dependent_services : Bool := false) : Bool × Option CanDisableFailure :=
  if e.purge = true ∧ e.supports_purge = false then
    (false, some ⟨CanDisableFailureReason.PURGE_NOT_SUPPORTED,
      some (messages.DISABLE_PURGE_NOT_SUPPORTED e.title)⟩)
  else if e.application_status.1 = ApplicationStatus.DISABLED then
    (false, some ⟨CanDisableFailureReason.ALREADY_DISABLED,
      some (messages.ALREADY_DISABLED e.title)⟩)
  else if ignore_dependent_services = false ∧ e.dependent_services.any
      (fun s => s.application_status = ApplicationStatus.ENABLED) then
    (false, some ⟨CanDisableFailureReason.ACTIVE_DEPENDENT_SERVICES, none⟩)
  else
    (true, none)

/-- The collaborator outcomes `enable` consults, carried as data: the ordered
results of the pre-enable messaging/confirmation hooks, the user-confirmation
answer, and whether the cascading disable of incompatible services or enable
of required services succeeds. Modelled from the spec: these are external
collaborator calls of `enable` in `uaclient/entitlements/base.py`
(module not in the tree). -/
structure EnableEnv where
  hooks : List Bool := []
  promptConfirm : Bool := true
  disableIncompatibleOk : Bool := true
  enableRequiredOk : Bool := true
  requiredFailTitle : String := ""
  requiredFailMsg : Option NamedMessage := none
deriving DecidableEq, Repr

/-- The observable outcome of one `enable` call: its return value, how many
messaging hooks were invoked, and whether the service-specific enable action
ran. -/
structure EnableOutcome where
  ok : Bool
  fail : Option CanEnableFailure
  hooksRun : Nat
  performInvoked : Bool
deriving DecidableEq, Repr

/-- Modelled from the spec: the messaging-hook collaborator — an ordered
sequence of pre-action callables each returning true (continue) or false
(abort), invoked in order, stopping at first false. Returns whether all
hooks passed and how many hooks were invoked. -/
def runHooks : List Bool → Bool × Nat
  | [] => (true, 0)
  | h :: t =>
    if h then
      let r := runHooks t
      (r.1, r.2 + 1)
    else (false, 1)

/-- The tail of `enable` once the permission stage has passed: run the
messaging hooks in order, abort with `(false, none)` at the first rejection,
else invoke the service-specific enable action. Modelled from the spec:
steps 4 and 5 of `enable` in `uaclient/entitlements/base.py`
(module not in the tree). -/
def runHooksThenPerform (env : EnableEnv) (e : Entitlement) : EnableOutcome :=
  let r := runHooks env.hooks
  if r.1 then
    { ok := e.performEnableOk, fail := none, hooksRun := r.2, performInvoked := true }
  else
    { ok := false, fail := none, hooksRun := r.2, performInvoked := false }

/-- Modelled from the spec: `enable` of `uaclient/entitlements/base.py`
(module not in the tree) — `can_enable` first, with the cascading
resolution of incompatible and inactive-required services, then the
messaging hooks, then the service-specific enable action. -/
def enable (env : EnableEnv) (e : Entitlement) : EnableOutcome :=
  match can_enable e with
  | (true, _) => runHooksThenPerform env e
  | (false, some f) =>
    if f.reason = CanEnableFailureReason.INCOMPATIBLE_SERVICE then
      if env.promptConfirm = true ∧ env.disableIncompatibleOk = true then
        runHooksThenPerform env e
      else
        { ok := false,
          fail := some ⟨CanEnableFailureReason.INCOMPATIBLE_SERVICE, none⟩,
          hooksRun := 0, performInvoked := false }
    else if f.reason = CanEnableFailureReason.INACTIVE_REQUIRED_SERVICES then
      if env.promptConfirm = true ∧ env.enableRequiredOk = true then
        runHooksThenPerform env e
      else
        { ok := false,
          fail := some ⟨CanEnableFailureReason.INACTIVE_REQUIRED_SERVICES,
            some (messages.ENABLE_REQUIRED_SERVICE_FAILED
              env.requiredFailTitle env.requiredFailMsg)⟩,
          hooksRun := 0, performInvoked := false }
    else
      { ok := false, fail := some f, hooksRun := 0, performInvoked := false }
  | (false, none) =>
    { ok := false, fail := none, hooksRun := 0, performInvoked := false }

/-- The effect of the service-specific disable action on the entitlement's
observable state: the application status becomes DISABLED. Modelled from the
spec (and mirrored by the unit tests' `ConcreteTestEntitlement._perform_disable`). -/
def performDisable (e : Entitlement) : Entitlement :=
  { e with application_status := (ApplicationStatus.DISABLED, none) }

/-- The effect of the service-specific enable action on the entitlement's
observable state: the application status becomes ENABLED. Modelled from the
spec. -/
def performEnable (e : Entitlement) : Entitlement :=
  { e with application_status := (ApplicationStatus.ENABLED, none) }

/-- A per-entitlement contract fragment (the `entitlement` key of an access
document), reduced to the keys the delta reconciler reads. Modelled from the
spec: the nested contract mapping consumed by `process_contract_deltas` of
`uaclient/entitlements/base.py` (module not in the tree). -/
structure EntitlementFragment where
  entitled : Option Bool := none
  enableByDefault : Option Bool := none
deriving DecidableEq, Repr

/-- A contract access document for one entitlement. `otherKeys` stands for any
further keys present (e.g. `resourceToken` carries one such key explicitly),
so that "the empty mapping" is expressible. Modelled from the spec. -/
structure AccessDoc where
  entitlement : Option EntitlementFragment := none
  resourceToken : Option String := none
  otherKeys : List String := []
deriving DecidableEq, Repr

/-- A value position in a contract delta: the key may be absent from the
delta, marked with the dropped-key sentinel (`util.DROPPED_KEY`), or set to a
new value. Modelled from the spec. -/
inductive DVal (α : Type) where
  | absent
  | dropped
  | val (a : α)
deriving DecidableEq, Repr

/-- The delta for an `entitlement` fragment. Modelled from the spec. -/
structure EntFragDelta where
  entitled : DVal Bool := DVal.absent
  enableByDefault : DVal Bool := DVal.absent
deriving DecidableEq, Repr

/-- The delta for a whole access document. Modelled from the spec. -/
structure AccessDelta where
  entitlement : DVal EntFragDelta := DVal.absent
  resourceToken : DVal String := DVal.absent
deriving DecidableEq, Repr

/-- Whether an access document is the empty mapping. -/
def isEmptyAccess (d : AccessDoc) : Bool :=
  d.entitlement.isNone && d.resourceToken.isNone && d.otherKeys.isEmpty

/-- Merge one key: the delta value overrides, the dropped-key sentinel removes
the key entirely, an absent delta key leaves the original. Modelled from the
spec: the depth-first overlay merge of `uaclient/util.py`
(module not in the tree). -/
def mergeOpt {α : Type} (o : Option α) : DVal α → Option α
  | DVal.absent => o
  | DVal.dropped => none
  | DVal.val a => some a

/-- Merge the `entitlement` fragment of an access document with its delta,
recursing key-wise into the fragment. Modelled from the spec. -/
def mergeFrag (o : Option EntitlementFragment) :
    DVal EntFragDelta → Option EntitlementFragment
  | DVal.absent => o
  | DVal.dropped => none
  | DVal.val d =>
    let b := o.getD {}
    some { entitled := mergeOpt b.entitled d.entitled,
           enableByDefault := mergeOpt b.enableByDefault d.enableByDefault }

/-- Merge a whole access document with a delta. Modelled from the spec. -/
def mergeAccess (o : AccessDoc) (d : AccessDelta) : AccessDoc :=
  { entitlement := mergeFrag o.entitlement d.entitlement,
    resourceToken := mergeOpt o.resourceToken d.resourceToken,
    otherKeys := o.otherKeys }

/-- Whether an access document marks the service as entitled: its
`entitlement.entitled` key is present and true. -/
def docEntitled (d : AccessDoc) : Bool :=
  (d.entitlement.bind EntitlementFragment.entitled).getD false

/-- Whether an access document's obligations mark the service as
enable-by-default: its `entitlement.obligations.enableByDefault` key is
present and true. -/
def docEnableByDefault (d : AccessDoc) : Bool :=
  (d.entitlement.bind EntitlementFragment.enableByDefault).getD false

/-- The observable outcome of one `process_contract_deltas` call: the
resulting entitlement state and how often each collaborator was invoked. -/
structure DeltasOutcome where
  ent : Entitlement
  canDisableCalls : Nat
  disableCalls : Nat
  canEnableCalls : Nat
  enableCalls : Nat
deriving DecidableEq, Repr

/-- Modelled from the spec: `process_contract_deltas` of
`uaclient/entitlements/base.py` (module not in the tree). No-op on an empty
`orig_access`; on an entitled-to-unentitled transition of a currently ENABLED
service, attempt `can_disable` and disable if allowed (an inactive service
only has its cached state cleared); otherwise, when `allow_enable` is set and
the merged obligations flip `enableByDefault` to true, set the local
beta-allow override, check `can_enable`, and enable if allowed. -/
def process_contract_deltas (e : Entitlement) (orig : AccessDoc)
    (delta : AccessDelta) (allow_enable : Bool := false) : DeltasOutcome :=
  if isEmptyAccess orig then ⟨e, 0, 0, 0, 0⟩
  else
    let merged := mergeAccess orig delta
    if docEntitled orig = true ∧ docEntitled merged = false then
      if e.application_status.1 = ApplicationStatus.ENABLED then
        if (can_disable e).1 then ⟨performDisable e, 1, 1, 0, 0⟩
        else ⟨e, 1, 0, 0, 0⟩
      else ⟨e, 0, 0, 0, 0⟩
    else
      if allow_enable = true ∧ docEnableByDefault merged = true ∧
          docEnableByDefault orig = false then
        let eBeta := { e with allow_beta := true }
        if (can_enable eBeta).1 then ⟨performEnable eBeta, 0, 0, 1, 1⟩
        else ⟨eBeta, 0, 0, 1, 0⟩
      else ⟨e, 0, 0, 0, 0⟩

/-- An override selector from the contract configuration: it may constrain on
variant, cloud and series. Modelled from the spec. -/
structure OverrideSelector where
  variant : Option String := none
  cloud : Option String := none
  series : Option String := none
deriving DecidableEq, Repr

/-- One entry of the contract configuration's `overrides` list, reduced to
its selector (the directive patch plays no role in variant discovery).
Modelled from the spec. -/
structure ContractOverride where
  selector : OverrideSelector
deriving DecidableEq, Repr

/-- Modelled from the spec: `_get_contract_variants` of
`uaclient/entitlements/base.py` (module not in the tree) — the set of variant
names named by the `variant` key of the override selectors of the contract
configuration. A set is represented as a deduplicated list. -/
def _get_contract_variants (overrides : List ContractOverride) : List String :=
  (overrides.filterMap (fun o => o.selector.variant)).dedup

/-- Modelled from the spec: the `variants` property of
`uaclient/entitlements/base.py` (module not in the tree), as pinned by the
repository's own unit test (`TestVariant.test_variant_property` of
`uaclient/entitlements/tests/test_base.py`): the property returns the FULL
mapping of variants the service implementation supports whenever that
mapping and the contract-declared variant names intersect, and the empty
mapping otherwise. -/
def variants {V : Type} (serviceVariants : List (String × V))
    (contractVariants : List String) : List (String × V) :=
  if serviceVariants.any (fun kv => contractVariants.contains kv.1) then
    serviceVariants
  else []

/-- `EnabledService` of
`uaclient/api/u/pro/status/enabled_services/v1.py`. -/
structure EnabledService where
  name : String
  variant_enabled : Bool := false
  variant_name : Option String := none
deriving DecidableEq, Repr

/-- `ErrorWarningObject` of `uaclient/api/data_types.py` (module not in the
tree), with its `meta` mapping reduced to the one `service` key this endpoint
puts there. -/
structure ErrorWarningObject where
  title : String
  code : String
  service : String
deriving DecidableEq, Repr

/-- One registered entitlement class together with its variant instances, the
data `_enabled_services` queries per service: in the Python source each
`ent_cls` of `ENTITLEMENT_CLASSES` is instantiated with the configuration and
so are the classes of its `variants` mapping. -/
structure ServiceWithVariants where
  ent : Entitlement
  variants : List Entitlement := []
deriving DecidableEq, Repr

/-- The configuration state `_enabled_services` reads: whether the machine is
attached and the registered entitlements (each with its variants). -/
structure UAConfig where
  attached : Bool
  services : List ServiceWithVariants
deriving DecidableEq, Repr

/-- `EnabledServicesResult` of
`uaclient/api/u/pro/status/enabled_services/v1.py`, with the `warnings`
additional-info field it is given before being returned. -/
structure EnabledServicesResult where
  enabled_services : List EnabledService
  warnings : List ErrorWarningObject
deriving DecidableEq, Repr

/-- The per-service body of the `_enabled_services` loop: a service whose
user-facing status is ACTIVE or WARNING yields one `EnabledService` entry;
the first variant whose own user-facing status is ACTIVE (the Python loop
breaks there) marks the entry `variant_enabled` and fills `variant_name`. -/
def enabledServiceOf (s : ServiceWithVariants) : Option EnabledService :=
  if (user_facing_status s.ent).1 = UserFacingStatus.ACTIVE ∨
      (user_facing_status s.ent).1 = UserFacingStatus.WARNING then
    match s.variants.find?
        (fun v => (user_facing_status v).1 = UserFacingStatus.ACTIVE) with
    | some v =>
      some { name := presentation_name s.ent, variant_enabled := true,
             variant_name := some v.variant_name }
    | none => some { name := presentation_name s.ent }
  else none

/-- The per-service warning collection of the `_enabled_services` loop: a
service whose user-facing status is WARNING with a detail message yields one
warning object. -/
def warningOf (s : ServiceWithVariants) : Option ErrorWarningObject :=
  match user_facing_status s.ent with
  | (UserFacingStatus.WARNING, some d) =>
    some { title := d.msg, code := d.name, service := presentation_name s.ent }
  | _ => none

/-- `_enabled_services` of `uaclient/api/u/pro/status/enabled_services/v1.py`:
empty result when not attached; otherwise one entry per ACTIVE/WARNING
entitlement, sorted ascending by name (Python's stable `sorted`, modelled by
the stable insertion sort), plus the warnings collected along the way. -/
def _enabled_services (cfg : UAConfig) : EnabledServicesResult :=
  if cfg.attached = false then ⟨[], []⟩
  else
    { enabled_services :=
        List.insertionSort (fun a b => a.name ≤ b.name)
          (cfg.services.filterMap enabledServiceOf),
      warnings := cfg.services.filterMap warningOf }

/-- The specification-side description of one enabled-services entry, written
from the claim's words rather than from the loop in the source: one entry per
entitlement whose user-facing status is ACTIVE or WARNING, `variant_enabled`
set exactly when SOME variant of that entitlement itself reports a user-facing
status of ACTIVE, and `variant_name` then filled with that variant's name. -/
def enabledServiceSpecEntry (s : ServiceWithVariants) : Option EnabledService :=
  if (user_facing_status s.ent).1 = UserFacingStatus.ACTIVE ∨
      (user_facing_status s.ent).1 = UserFacingStatus.WARNING then
    some { name := presentation_name s.ent,
           variant_enabled := s.variants.any
             (fun v => (user_facing_status v).1 = UserFacingStatus.ACTIVE),
           variant_name := (s.variants.find?
             (fun v => (user_facing_status v).1 = UserFacingStatus.ACTIVE)).map
               (fun v => v.variant_name) }
  else none

instance : IsTotal EnabledService (fun a b => a.name ≤ b.name) :=
  ⟨fun a b => le_total a.name b.name⟩

instance : IsTrans EnabledService (fun a b => a.name ≤ b.name) :=
  ⟨fun _ _ _ hab hbc => le_trans hab hbc⟩

/-- A baseline concrete entitlement mirroring the unit tests'
`ConcreteTestEntitlement` defaults: entitled, applicable, disabled. -/
def entBase : Entitlement :=
  { name := "testconcreteentitlement",
    title := "Test Concrete Entitlement",
    entitled := true,
    applicability_status := (ApplicabilityStatus.APPLICABLE, none),
    application_status := (ApplicationStatus.DISABLED, none) }

/-- A concrete access document carrying `{entitlement: {entitled: true,
obligations: {enableByDefault: false}}, resourceToken: "test"}`. -/
def origAccessSample : AccessDoc :=
  { entitlement := some { entitled := some true, enableByDefault := some false },
    resourceToken := some "test" }

/-- A concrete delta setting `entitlement.entitled` to false. -/
def deltaUnentitle : AccessDelta :=
  { entitlement := DVal.val { entitled := DVal.val false } }

/-- A concrete delta flipping `entitlement.obligations.enableByDefault` to
true while keeping the service entitled. -/
def deltaEnableByDefault : AccessDelta :=
  { entitlement :=
      DVal.val { entitled := DVal.val true, enableByDefault := DVal.val true } }

/-- A concrete configuration for the enabled-services endpoint: attached, with
one ACTIVE service named "esm-infra" carrying an ACTIVE variant, one WARNING
service named "anbox-cloud", and one INACTIVE service that must not appear. -/
def cfgSample : UAConfig :=
  { attached := true,
    services :=
      [ { ent :=
            { entBase with
                name := "esm-infra",
                application_status := (ApplicationStatus.ENABLED, none) },
          variants :=
            [ { entBase with
                  name := "esm-infra-variant",
                  variant_name := "raspi",
                  application_status := (ApplicationStatus.ENABLED, none) } ] },
        { ent :=
            { entBase with
                name := "anbox-cloud",
                application_status :=
                  (ApplicationStatus.WARNING,
                    some ⟨"warn-code", "warn message"⟩) } },
        { ent := { entBase with name := "livepatch" } } ] }

/-- Claim C1: for every triple of (applicability status, contract status,
application status), `user_facing_status` is the pure function given by the
precedence table: INAPPLICABLE if applicability is INAPPLICABLE (with the
applicability detail); else UNAVAILABLE with the "service not entitled"
message naming the title if contract status is UNENTITLED; else WARNING (with
the application detail) if application status is WARNING; else ACTIVE if
application status is ENABLED; else INACTIVE. In particular INAPPLICABLE
always wins over UNAVAILABLE, and UNAVAILABLE always wins over
WARNING/ACTIVE/INACTIVE. -/
theorem c1_user_facing_status_precedence (e : Entitlement) :
    (e.applicability_status.1 = ApplicabilityStatus.INAPPLICABLE →
      user_facing_status e =
        (UserFacingStatus.INAPPLICABLE, e.applicability_status.2)) ∧
    (e.applicability_status.1 = ApplicabilityStatus.APPLICABLE →
      contract_status e = ContractStatus.UNENTITLED →
      user_facing_status e =
        (UserFacingStatus.UNAVAILABLE,
          some (messages.SERVICE_NOT_ENTITLED e.title))) ∧
    (e.applicability_status.1 = ApplicabilityStatus.APPLICABLE →
      contract_status e = ContractStatus.ENTITLED →
      e.application_status.1 = ApplicationStatus.WARNING →
      user_facing_status e =
        (UserFacingStatus.WARNING, e.application_status.2)) ∧
    (e.applicability_status.1 = ApplicabilityStatus.APPLICABLE →
      contract_status e = ContractStatus.ENTITLED →
      e.application_status.1 = ApplicationStatus.ENABLED →
      (user_facing_status e).1 = UserFacingStatus.ACTIVE) ∧
    (e.applicability_status.1 = ApplicabilityStatus.APPLICABLE →
      contract_status e = ContractStatus.ENTITLED →
      e.application_status.1 = ApplicationStatus.DISABLED →
      (user_facing_status e).1 = UserFacingStatus.INACTIVE) := by
  unfold user_facing_status
  refine ⟨?_, ?_, ?_, ?_, ?_⟩ <;> intros <;> simp_all

/-- Claim C1 witness: the five rows of the decision table at concrete
entitlements. -/
theorem c1_user_facing_status_precedence_witness :
    user_facing_status
        { entBase with
            applicability_status :=
              (ApplicabilityStatus.INAPPLICABLE, some ⟨"d", "detail"⟩) } =
      (UserFacingStatus.INAPPLICABLE, some ⟨"d", "detail"⟩) ∧
    user_facing_status { entBase with entitled := false } =
      (UserFacingStatus.UNAVAILABLE,
        some (messages.SERVICE_NOT_ENTITLED "Test Concrete Entitlement")) ∧
    user_facing_status
        { entBase with
            application_status :=
              (ApplicationStatus.WARNING, some ⟨"w", "warn"⟩) } =
      (UserFacingStatus.WARNING, some ⟨"w", "warn"⟩) ∧
    (user_facing_status
        { entBase with
            application_status := (ApplicationStatus.ENABLED, none) }).1 =
      UserFacingStatus.ACTIVE ∧
    (user_facing_status entBase).1 = UserFacingStatus.INACTIVE :=
  ⟨(c1_user_facing_status_precedence _).1 rfl,
   (c1_user_facing_status_precedence _).2.1 rfl rfl,
   (c1_user_facing_status_precedence _).2.2.1 rfl rfl rfl,
   (c1_user_facing_status_precedence _).2.2.2.1 rfl rfl rfl,
   (c1_user_facing_status_precedence _).2.2.2.2 rfl rfl rfl⟩

/-- Claim C3 counterexample: an entitlement whose application status is
ENABLED but whose contract does not entitle it; `can_enable` returns
NOT_ENTITLED, not ALREADY_ENABLED, so ALREADY_ENABLED does not win
"regardless of every other condition". -/
theorem c3_already_enabled_counterexample :
    ({ entBase with
        entitled := false,
        application_status :=
          (ApplicationStatus.ENABLED, none) } : Entitlement).application_status.1 =
      ApplicationStatus.ENABLED ∧
    (can_enable
        { entBase with
            entitled := false,
            application_status := (ApplicationStatus.ENABLED, none) }).2.map
        CanEnableFailure.reason ≠ some CanEnableFailureReason.ALREADY_ENABLED ∧
    can_enable
        { entBase with
            entitled := false,
            application_status := (ApplicationStatus.ENABLED, none) } =
      (false, some ⟨CanEnableFailureReason.NOT_ENTITLED,
        some (messages.UNENTITLED "Test Concrete Entitlement")⟩) := by
  refine ⟨rfl, ?_, rfl⟩
  decide

/-- Claim C3 (amended): for every entitlement whose application status is
ENABLED, provided the contract entitles the service and access-only mode is
not requested on a service that does not support it (the two checks that
precede it), `can_enable` returns `(false, ALREADY_ENABLED)` regardless of
every other condition (applicability, beta gating, incompatible and required
services). -/
theorem c3_already_enabled_amended (e : Entitlement)
    (hent : e.entitled = true)
    (hao : ¬(e.access_only = true ∧ e.supports_access_only = false))
    (happ : e.application_status.1 = ApplicationStatus.ENABLED) :
    can_enable e =
      (false, some ⟨CanEnableFailureReason.ALREADY_ENABLED,
        some (messages.ALREADY_ENABLED e.title)⟩) := by
  unfold can_enable
  simp_all

/-- Claim C3 (amended) witness: a concrete inapplicable, beta, ENABLED
entitlement with an incompatible service; ALREADY_ENABLED still wins. -/
theorem c3_already_enabled_amended_witness :
    can_enable
        { entBase with
            application_status := (ApplicationStatus.ENABLED, none),
            applicability_status := (ApplicabilityStatus.INAPPLICABLE, none),
            is_beta := true,
            incompatible_services :=
              [⟨"inc", "Inc", ApplicationStatus.ENABLED⟩] } =
      (false, some ⟨CanEnableFailureReason.ALREADY_ENABLED,
        some (messages.ALREADY_ENABLED "Test Concrete Entitlement")⟩) :=
  c3_already_enabled_amended _ rfl (by decide) rfl

/-- Claim C7 counterexample: a DISABLED service with purge requested but
unsupported; `can_disable` returns PURGE_NOT_SUPPORTED, not ALREADY_DISABLED,
so ALREADY_DISABLED does not win "regardless of other conditions". -/
theorem c7_already_disabled_counterexample :
    ({ entBase with
        purge := true } : Entitlement).application_status.1 =
      ApplicationStatus.DISABLED ∧
    (can_disable { entBase with purge := true }).2.map
        CanDisableFailure.reason ≠ some CanDisableFailureReason.ALREADY_DISABLED ∧
    can_disable { entBase with purge := true } =
      (false, some ⟨CanDisableFailureReason.PURGE_NOT_SUPPORTED,
        some (messages.DISABLE_PURGE_NOT_SUPPORTED
          "Test Concrete Entitlement")⟩) := by
  refine ⟨rfl, ?_, rfl⟩
  decide

/-- Claim C7 (amended): for every entitlement whose application status is
DISABLED, provided purge is not requested on a service that does not support
it (the one check preceding it), `can_disable` returns
`(false, ALREADY_DISABLED)` regardless of every other condition (including
dependent services and the ignore-dependent-services flag). -/
theorem c7_already_disabled_amended (e : Entitlement) (i : Bool)
    (hp : ¬(e.purge = true ∧ e.supports_purge = false))
    (happ : e.application_status.1 = ApplicationStatus.DISABLED) :
    can_disable e i =
      (false, some ⟨CanDisableFailureReason.ALREADY_DISABLED,
        some (messages.ALREADY_DISABLED e.title)⟩) := by
  unfold can_disable
  simp_all

/-- Claim C7 (amended) witness: a concrete DISABLED entitlement with an
ENABLED dependent service; ALREADY_DISABLED still wins. -/
theorem c7_already_disabled_amended_witness :
    can_disable
        { entBase with
            dependent_services := [⟨"dep", "Dep", ApplicationStatus.ENABLED⟩] }
        false =
      (false, some ⟨CanDisableFailureReason.ALREADY_DISABLED,
        some (messages.ALREADY_DISABLED "Test Concrete Entitlement")⟩) :=
  c7_already_disabled_amended _ false (by decide) rfl

/-- Claim C8: for every delta, if `orig_access` is the empty mapping then
`process_contract_deltas` is a no-op: the entitlement state is unchanged and
neither disable nor enable (nor can_disable/can_enable) is called. -/
theorem c8_deltas_noop_on_empty_orig (e : Entitlement) (orig : AccessDoc)
    (delta : AccessDelta) (allow_enable : Bool)
    (h : isEmptyAccess orig = true) :
    process_contract_deltas e orig delta allow_enable =
      { ent := e, canDisableCalls := 0, disableCalls := 0,
        canEnableCalls := 0, enableCalls := 0 } := by
  unfold process_contract_deltas
  simp [h]

/-- Claim C8 witness: the no-op at the empty access document and a concrete
delta. -/
theorem c8_deltas_noop_on_empty_orig_witness :
    isEmptyAccess {} = true ∧
    process_contract_deltas entBase {} deltaUnentitle true =
      { ent := entBase, canDisableCalls := 0, disableCalls := 0,
        canEnableCalls := 0, enableCalls := 0 } :=
  ⟨rfl, c8_deltas_noop_on_empty_orig entBase {} deltaUnentitle true rfl⟩

/-- Claim C2: `can_enable` evaluates its checks in exactly this order,
short-circuiting at the first failure: NOT_ENTITLED,
ACCESS_ONLY_NOT_SUPPORTED, ALREADY_ENABLED, INAPPLICABLE (message = the
applicability detail), IS_BETA (failing only when the service is beta and
neither the caller's allow-beta override nor the global configuration allows
beta; no message), INCOMPATIBLE_SERVICE (some incompatible service reports
ENABLED; no message), INACTIVE_REQUIRED_SERVICES (some required service
reports non-ENABLED; no message); if no check fails it returns `(true, none)`.
Stated as the flat characterization of each outcome that the ordered
short-circuit evaluation induces. -/
theorem c2_can_enable_check_order (e : Entitlement) :
    (can_enable e = (false, some ⟨CanEnableFailureReason.NOT_ENTITLED,
        some (messages.UNENTITLED e.title)⟩) ↔
      e.entitled = false) ∧
    (can_enable e = (false, some ⟨CanEnableFailureReason.ACCESS_ONLY_NOT_SUPPORTED,
        some (messages.ENABLE_ACCESS_ONLY_NOT_SUPPORTED e.title)⟩) ↔
      (¬e.entitled = false ∧
        (e.access_only = true ∧ e.supports_access_only = false))) ∧
    (can_enable e = (false, some ⟨CanEnableFailureReason.ALREADY_ENABLED,
        some (messages.ALREADY_ENABLED e.title)⟩) ↔
      (¬e.entitled = false ∧
        ¬(e.access_only = true ∧ e.supports_access_only = false) ∧
        e.application_status.1 = ApplicationStatus.ENABLED)) ∧
    (can_enable e = (false, some ⟨CanEnableFailureReason.INAPPLICABLE,
        e.applicability_status.2⟩) ↔
      (¬e.entitled = false ∧
        ¬(e.access_only = true ∧ e.supports_access_only = false) ∧
        ¬e.application_status.1 = ApplicationStatus.ENABLED ∧
        e.applicability_status.1 = ApplicabilityStatus.INAPPLICABLE)) ∧
    (can_enable e = (false, some ⟨CanEnableFailureReason.IS_BETA, none⟩) ↔
      (¬e.entitled = false ∧
        ¬(e.access_only = true ∧ e.supports_access_only = false) ∧
        ¬e.application_status.1 = ApplicationStatus.ENABLED ∧
        ¬e.applicability_status.1 = ApplicabilityStatus.INAPPLICABLE ∧
        (e.is_beta = true ∧ e.allow_beta = false ∧ e.cfg_allow_beta = false))) ∧
    (can_enable e = (false, some ⟨CanEnableFailureReason.INCOMPATIBLE_SERVICE,
        none⟩) ↔
      (¬e.entitled = false ∧
        ¬(e.access_only = true ∧ e.supports_access_only = false) ∧
        ¬e.application_status.1 = ApplicationStatus.ENABLED ∧
        ¬e.applicability_status.1 = ApplicabilityStatus.INAPPLICABLE ∧
        ¬(e.is_beta = true ∧ e.allow_beta = false ∧ e.cfg_allow_beta = false) ∧
        (∃ s ∈ e.incompatible_services,
          s.application_status = ApplicationStatus.ENABLED))) ∧
    (can_enable e = (false, some ⟨CanEnableFailureReason.INACTIVE_REQUIRED_SERVICES,
        none⟩) ↔
      (¬e.entitled = false ∧
        ¬(e.access_only = true ∧ e.supports_access_only = false) ∧
        ¬e.application_status.1 = ApplicationStatus.ENABLED ∧
        ¬e.applicability_status.1 = ApplicabilityStatus.INAPPLICABLE ∧
        ¬(e.is_beta = true ∧ e.allow_beta = false ∧ e.cfg_allow_beta = false) ∧
        ¬(∃ s ∈ e.incompatible_services,
          s.application_status = ApplicationStatus.ENABLED) ∧
        (∃ s ∈ e.required_services,
          s.application_status ≠ ApplicationStatus.ENABLED))) ∧
    (can_enable e = (true, none) ↔
      (¬e.entitled = false ∧
        ¬(e.access_only = true ∧ e.supports_access_only = false) ∧
        ¬e.application_status.1 = ApplicationStatus.ENABLED ∧
        ¬e.applicability_status.1 = ApplicabilityStatus.INAPPLICABLE ∧
        ¬(e.is_beta = true ∧ e.allow_beta = false ∧ e.cfg_allow_beta = false) ∧
        ¬(∃ s ∈ e.incompatible_services,
          s.application_status = ApplicationStatus.ENABLED) ∧
        ¬(∃ s ∈ e.required_services,
          s.application_status ≠ ApplicationStatus.ENABLED))) := by
  unfold can_enable
  split_ifs with h1 h2 h3 h4 h5 h6 h7 <;>
    simp_all [List.any_eq_true]

/-- Claim C2 witness: the baseline concrete entitlement passes every check,
via the success characterization. -/
theorem c2_can_enable_check_order_witness :
    can_enable entBase = (true, none) :=
  (c2_can_enable_check_order entBase).2.2.2.2.2.2.2.mpr (by decide)

/-- Claim C4: for every entitlement with previous contract access showing
entitled and a delta making it unentitled (whether the entitled key is set to
false or removed via the dropped-key sentinel — both captured by the merged
document no longer being entitled), if the application status is ENABLED and
`can_disable` allows it, then `process_contract_deltas` invokes disable and
the resulting application status is DISABLED. -/
theorem c4_deltas_disable_on_unentitled (e : Entitlement) (orig : AccessDoc)
    (delta : AccessDelta) (allow_enable : Bool)
    (hwas : docEntitled orig = true)
    (hnow : docEntitled (mergeAccess orig delta) = false)
    (happ : e.application_status.1 = ApplicationStatus.ENABLED)
    (hcd : (can_disable e).1 = true) :
    (process_contract_deltas e orig delta allow_enable).disableCalls = 1 ∧
    (process_contract_deltas e orig delta
        allow_enable).ent.application_status.1 = ApplicationStatus.DISABLED := by
  have hne : isEmptyAccess orig = false := by
    unfold docEntitled at hwas
    unfold isEmptyAccess
    cases horig : orig.entitlement with
    | none => rw [horig] at hwas; simp at hwas
    | some f => simp [horig]
  unfold process_contract_deltas
  simp [hne, hwas, hnow, happ, hcd, performDisable]

/-- Claim C4 witness: the concrete entitled-to-unentitled delta on an ENABLED
concrete entitlement. -/
theorem c4_deltas_disable_on_unentitled_witness :
    docEntitled origAccessSample = true ∧
    docEntitled (mergeAccess origAccessSample deltaUnentitle) = false ∧
    (process_contract_deltas
        { entBase with application_status := (ApplicationStatus.ENABLED, none) }
        origAccessSample deltaUnentitle false).disableCalls = 1 ∧
    (process_contract_deltas
        { entBase with application_status := (ApplicationStatus.ENABLED, none) }
        origAccessSample deltaUnentitle
        false).ent.application_status.1 = ApplicationStatus.DISABLED :=
  ⟨rfl, rfl,
   (c4_deltas_disable_on_unentitled
     { entBase with application_status := (ApplicationStatus.ENABLED, none) }
     origAccessSample deltaUnentitle false rfl rfl rfl rfl).1,
   (c4_deltas_disable_on_unentitled
     { entBase with application_status := (ApplicationStatus.ENABLED, none) }
     origAccessSample deltaUnentitle false rfl rfl rfl rfl).2⟩

/-- Claim C5: for every beta entitlement not otherwise allowed beta, if
`process_contract_deltas` is called with `allow_enable = true`, a non-empty
previous access that stays entitled, and a delta whose obligations flip
`enableByDefault` from false to true, then the entitlement's local beta-allow
flag becomes true and enable is invoked exactly once (when `can_enable`, with
the flag set, allows it). -/
theorem c5_deltas_beta_auto_enable (e : Entitlement) (orig : AccessDoc)
    (delta : AccessDelta)
    (_hbeta : e.is_beta = true)
    (_hab : e.allow_beta = false)
    (_hcfgab : e.cfg_allow_beta = false)
    (hne : isEmptyAccess orig = false)
    (hstay : ¬(docEntitled orig = true ∧
      docEntitled (mergeAccess orig delta) = false))
    (hflip0 : docEnableByDefault orig = false)
    (hflip1 : docEnableByDefault (mergeAccess orig delta) = true)
    (hce : (can_enable { e with allow_beta := true }).1 = true) :
    (process_contract_deltas e orig delta true).ent.allow_beta = true ∧
    (process_contract_deltas e orig delta true).enableCalls = 1 := by
  unfold process_contract_deltas
  simp [hne, hstay, hflip0, hflip1, hce, performEnable]

/-- Claim C5 witness: the concrete enable-by-default flip on a concrete beta
entitlement not otherwise allowed beta. -/
theorem c5_deltas_beta_auto_enable_witness :
    (process_contract_deltas { entBase with is_beta := true }
        origAccessSample deltaEnableByDefault true).ent.allow_beta = true ∧
    (process_contract_deltas { entBase with is_beta := true }
        origAccessSample deltaEnableByDefault true).enableCalls = 1 :=
  c5_deltas_beta_auto_enable _ _ _ rfl rfl rfl rfl (by decide) rfl rfl (by decide)

/-- Helper: running the messaging hooks stops at the first rejecting hook:
the result is a rejection after exactly (number of leading accepting hooks)
plus one invocations. -/
theorem runHooks_mem_false (hooks : List Bool) (h : false ∈ hooks) :
    runHooks hooks = (false, (hooks.takeWhile (fun b => b)).length + 1) := by
  induction hooks with
  | nil => simp at h
  | cons a t ih =>
    cases a with
    | false => simp [runHooks, List.takeWhile]
    | true =>
      have ht : false ∈ t := by simpa using h
      simp [runHooks, List.takeWhile, ih ht]

/-- Claim C6: during `enable`, if any pre-enable messaging/confirmation hook
in the ordered sequence signals rejection, `enable` aborts returning
`(false, none)`, no hook beyond the first rejecting one is invoked, and the
service-specific enable action does not run. Stated for an entitlement whose
permission stage passes, so that the hook stage is reached. -/
theorem c6_enable_hook_rejection (e : Entitlement) (env : EnableEnv)
    (hce : (can_enable e).1 = true)
    (hmem : false ∈ env.hooks) :
    enable env e =
      { ok := false, fail := none,
        hooksRun := (env.hooks.takeWhile (fun b => b)).length + 1,
        performInvoked := false } := by
  unfold enable
  rcases hq : can_enable e with ⟨b, f⟩
  rw [hq] at hce
  simp at hce
  subst hce
  unfold runHooksThenPerform
  rw [runHooks_mem_false env.hooks hmem]
  simp

/-- Claim C6 witness: a concrete hook sequence `[true, false, true]` on the
baseline entitlement — the rejection aborts with `(false, none)` after two
hook invocations and the enable action never runs. -/
theorem c6_enable_hook_rejection_witness :
    enable { hooks := [true, false, true] } entBase =
      { ok := false, fail := none, hooksRun := 2, performInvoked := false } :=
  c6_enable_hook_rejection entBase { hooks := [true, false, true] } rfl
    (by decide)

/-- Claim C9 counterexample: with contract overrides declaring only the
variant "test_variant" and a service supporting variants "test_variant" and
"generic", the `variants` property contains "generic" — which is NOT in the
intersection of the two sets — so `variants` does not equal the intersection.
This is the behaviour the repository's own unit test
(`TestVariant.test_variant_property`) pins. -/
theorem c9_variants_counterexample :
    _get_contract_variants
        [{ selector := { variant := some "test_variant" } }] = ["test_variant"] ∧
    variants [("test_variant", 1), ("generic", 2)]
        (_get_contract_variants
          [{ selector := { variant := some "test_variant" } }]) =
      [("test_variant", 1), ("generic", 2)] ∧
    ¬("generic" ∈ _get_contract_variants
        [{ selector := { variant := some "test_variant" } }]) := by
  refine ⟨rfl, rfl, ?_⟩
  decide

/-- Claim C9 (amended): the `variants` property equals the FULL mapping of
variants the concrete service implementation supports whenever some supported
variant name is among the variant names declared reachable in the contract
configuration (via override selectors naming a variant), and the empty
mapping otherwise — in particular it is empty whenever either side is empty
or the two sets do not intersect. -/
theorem c9_variants_amended {V : Type} (sv : List (String × V))
    (ovr : List ContractOverride) :
    ((∃ kv ∈ sv, kv.1 ∈ _get_contract_variants ovr) →
      variants sv (_get_contract_variants ovr) = sv) ∧
    ((¬∃ kv ∈ sv, kv.1 ∈ _get_contract_variants ovr) →
      variants sv (_get_contract_variants ovr) = []) ∧
    (∀ n : String, n ∈ _get_contract_variants ovr ↔
      ∃ o ∈ ovr, o.selector.variant = some n) := by
  refine ⟨?_, ?_, ?_⟩
  · intro h
    unfold variants
    rw [if_pos]
    simpa [List.any_eq_true, List.elem_iff] using h
  · intro h
    unfold variants
    rw [if_neg]
    simpa [List.any_eq_true, List.elem_iff] using h
  · intro n
    simp [_get_contract_variants, List.mem_dedup, List.mem_filterMap]

/-- Claim C9 (amended) witness: the two branches at concrete inputs. -/
theorem c9_variants_amended_witness :
    variants [("test_variant", 1), ("generic", 2)]
        (_get_contract_variants
          [{ selector := { variant := some "test_variant" } }]) =
      [("test_variant", 1), ("generic", 2)] ∧
    variants [("test_variant", 1), ("generic", 2)]
        (_get_contract_variants
          [{ selector := { variant := some "not-found-variant" } }]) = [] :=
  ⟨(c9_variants_amended [("test_variant", 1), ("generic", 2)]
      [{ selector := { variant := some "test_variant" } }]).1 (by decide),
   (c9_variants_amended [("test_variant", 1), ("generic", 2)]
      [{ selector := { variant := some "not-found-variant" } }]).2.1 (by decide)⟩

/-- Helper: the per-service loop body of `_enabled_services` produces exactly
the entry the claim describes — `variant_enabled` via the first ACTIVE
variant found is the same as "some variant reports ACTIVE". -/
theorem enabledServiceOf_eq_spec (s : ServiceWithVariants) :
    enabledServiceOf s = enabledServiceSpecEntry s := by
  unfold enabledServiceOf enabledServiceSpecEntry
  split_ifs with h
  · cases hf : s.variants.find?
        (fun v => (user_facing_status v).1 = UserFacingStatus.ACTIVE) with
    | none =>
      have hall := List.find?_eq_none.mp hf
      simp only [Option.map_none', Option.some.injEq, EnabledService.mk.injEq]
      refine ⟨trivial, ?_, trivial⟩
      symm
      rw [List.any_eq_false]
      exact hall
    | some v =>
      have hmem := List.mem_of_find?_eq_some hf
      have hact := List.find?_some hf
      simp only [Option.map_some', Option.some.injEq, EnabledService.mk.injEq]
      refine ⟨trivial, ?_, trivial⟩
      symm
      rw [List.any_eq_true]
      exact ⟨v, hmem, hact⟩
  · rfl

/-- Claim C10: `_enabled_services` returns the empty result when the machine
is not attached; otherwise its `enabled_services` list is, up to the
ascending-by-name ordering in which it is returned, exactly one entry per
entitlement whose user-facing status is ACTIVE or WARNING, where
`variant_enabled` is set (and `variant_name` filled) exactly when some
variant of that entitlement itself reports user-facing status ACTIVE. -/
theorem c10_enabled_services (cfg : UAConfig) :
    (cfg.attached = false → _enabled_services cfg = ⟨[], []⟩) ∧
    (cfg.attached = true →
      (_enabled_services cfg).enabled_services.Perm
        (cfg.services.filterMap enabledServiceSpecEntry) ∧
      List.Sorted (fun a b : EnabledService => a.name ≤ b.name)
        (_enabled_services cfg).enabled_services ∧
      ∀ es ∈ (_enabled_services cfg).enabled_services,
        (es.variant_enabled = true ↔ es.variant_name.isSome = true)) := by
  constructor
  · intro h
    unfold _enabled_services
    simp [h]
  · intro h
    have hfn : cfg.services.filterMap enabledServiceOf =
        cfg.services.filterMap enabledServiceSpecEntry :=
      congrArg (fun f => cfg.services.filterMap f)
        (funext enabledServiceOf_eq_spec)
    have hres : _enabled_services cfg =
        { enabled_services :=
            List.insertionSort (fun a b => a.name ≤ b.name)
              (cfg.services.filterMap enabledServiceOf),
          warnings := cfg.services.filterMap warningOf } := by
      unfold _enabled_services
      rw [h]
      simp
    rw [hres]
    refine ⟨?_, ?_, ?_⟩
    · rw [hfn]
      exact List.perm_insertionSort _ _
    · exact List.sorted_insertionSort _ _
    · intro es hes
      have hmem : es ∈ cfg.services.filterMap enabledServiceOf := by
        simpa [List.mem_insertionSort] using hes
      obtain ⟨s, -, hsome⟩ := List.mem_filterMap.mp hmem
      unfold enabledServiceOf at hsome
      split at hsome
      · split at hsome
        · cases hsome
          simp
        · cases hsome
          simp
      · cases hsome

/-- Claim C10 witness: the concrete attached configuration — the result is a
permutation of the claim's per-service entries and sorted by name. -/
theorem c10_enabled_services_witness :
    (_enabled_services cfgSample).enabled_services.Perm
        (cfgSample.services.filterMap enabledServiceSpecEntry) ∧
    List.Sorted (fun a b : EnabledService => a.name ≤ b.name)
      (_enabled_services cfgSample).enabled_services :=
  ⟨((c10_enabled_services cfgSample).2 rfl).1,
   ((c10_enabled_services cfgSample).2 rfl).2.1⟩
